import Mathlib

/-!
Shallow embedding of the request-translation and pagination-aggregation core
of the Redmine MCP server (src/src/index.ts and src/src/utils/redmine-client.ts),
with theorems checking the specified behaviour of that core.
-/

namespace RedmineMCP

/-- Scalar value stored in a query-parameter mapping or request-body object
(the source type is `Record<string, string | number>`). -/
inductive PVal where
  | str (s : String)
  | num (n : Int)
deriving DecidableEq, Repr

/-- Ordered JavaScript-object model: an association list in key insertion
order, with unique keys maintained by `objSet`. -/
abbrev Obj := List (String × PVal)

/-- Property read `o[k]`: the value at key `k`, `none` when the key is absent
(the JavaScript `undefined`). -/
def objGet : Obj → String → Option PVal
  | [], _ => none
  | (k2, v) :: rest, k => if k2 == k then some v else objGet rest k

/-- Property write `o[k] = v` with JavaScript semantics: an existing key keeps
its position and gets the new value, a new key is appended at the end. -/
def objSet : Obj → String → PVal → Obj
  | [], k, v => [(k, v)]
  | (k2, v2) :: rest, k, v =>
      if k2 == k then (k, v) :: rest else (k2, v2) :: objSet rest k v

/-- JavaScript truthiness of an optional string argument: present and
non-empty (the guard `if (args.x)` on a string-typed field). -/
def truthyStr : Option String → Bool
  | none => false
  | some s => !(s == "")

/-- JavaScript truthiness of an optional numeric argument: present and
non-zero (the guard `if (args.x)` on a number-typed field). -/
def truthyNum : Option Int → Bool
  | none => false
  | some n => !(n == 0)

/-- JavaScript truthiness of an object property read: `undefined`, `0` and
the empty string are falsy. -/
def truthyVal : Option PVal → Bool
  | none => false
  | some (.num n) => !(n == 0)
  | some (.str s) => !(s == "")

/-- The pattern `if (args.x) data["x"] = args.x` for a string-typed optional
field: copy the field only when truthy. -/
def setIfStr (d : Obj) (k : String) (o : Option String) : Obj :=
  match o with
  | some s => if s == "" then d else objSet d k (.str s)
  | none => d

/-- The pattern `if (args.x) data["x"] = args.x` for a number-typed optional
field: copy the field only when truthy, so a supplied zero is dropped. -/
def setIfNum (d : Obj) (k : String) (o : Option Int) : Obj :=
  match o with
  | some n => if n == 0 then d else objSet d k (.num n)
  | none => d

/-- The pattern `if (args.x !== undefined) data["x"] = args.x`: copy the field
whenever it is present, zero included (used for the completion percentage
field of updateIssue, src/src/index.ts line 446). -/
def setIfDefined (d : Obj) (k : String) (o : Option Int) : Obj :=
  match o with
  | some n => objSet d k (.num n)
  | none => d

/-- A JavaScript `Error` value, carrying its message. -/
structure JsErr where
  message : String
deriving DecidableEq, Repr

/-- Template-literal interpolation `${error}` applied to an `Error` value:
the name followed by the message, `"Error: " ++ message`. -/
def errString (e : JsErr) : String := "Error: " ++ e.message

/-- One text content item of a tool response, `{ type: "text", text }`. -/
structure TextItem where
  itemType : String
  text : String
deriving DecidableEq, Repr

/-- The response envelope surfaced to the calling protocol layer. A success
envelope built by a tool method carries no `isError` property, which reads
back as falsy; it is modelled as `isError = false`. -/
structure ToolEnvelope where
  content : List TextItem
  isError : Bool
deriving DecidableEq, Repr

/-- An outbound HTTP request issued through the transport client
`fetchRedmine` (src/src/utils/redmine-client.ts): path, method, query
parameters, and the optional body `{ "<entity>": { ...fields } }`. -/
structure Request where
  path : String
  method : String
  params : Obj
  body : Option (String × Obj)
deriving DecidableEq, Repr

/-- Outcome of one transport call, as seen by a translator: the parsed JSON
value (represented by its serialized text) or a thrown `Error`. -/
abbrev Transport := Request → Except JsErr String

/-! ## Operation translators -/

/-- Arguments of the get_issues tool (src/src/types/schemas.ts,
getIssuesSchemaShape): all fields optional, limit numeric. -/
structure GetIssuesArgs where
  project_id : Option String
  status_id : Option String
  assigned_to_id : Option String
  limit : Option Int
  issue_id : Option String
  subject : Option String
  parent_id : Option String
deriving DecidableEq, Repr

/-- Query parameters built by getIssues (src/src/index.ts lines 243 to 254):
each truthy filter is copied under its wire name, the subject filter gains
the leading tilde contains-operator, and the fixed sort parameter is
assigned unconditionally last. -/
def buildIssueParams (args : GetIssuesArgs) : Obj :=
  let d : Obj := []
  let d := setIfStr d "project_id" args.project_id
  let d := setIfStr d "status_id" args.status_id
  let d := setIfStr d "assigned_to_id" args.assigned_to_id
  let d := setIfNum d "limit" args.limit
  let d := setIfStr d "issue_id" args.issue_id
  let d := match args.subject with
    | some s => if s == "" then d else objSet d "subject" (.str ("~" ++ s))
    | none => d
  let d := setIfStr d "parent_id" args.parent_id
  objSet d "sort" (.str "priority:desc,updated_on:desc")

/-- The single GET request issued by getIssues. -/
def issuesRequest (args : GetIssuesArgs) : Request :=
  ⟨"/issues.json", "GET", buildIssueParams args, none⟩

/-- The getIssues tool method (src/src/index.ts lines 239 to 270): builds the
query parameters, issues one GET request, and on success wraps the JSON data
(represented by its serialized text) as a single text content item. The catch
clause rethrows a fresh Error whose message prefixes the operation context
around the interpolated original error. The second component records the
outbound requests actually issued. -/
def getIssues (args : GetIssuesArgs) (fetch : Transport) :
    Except JsErr ToolEnvelope × List Request :=
  let req := issuesRequest args
  match fetch req with
  | .ok data => (.ok ⟨[⟨"text", data⟩], false⟩, [req])
  | .error e => (.error ⟨"Failed to fetch issues: " ++ errString e⟩, [req])

/-- Arguments of the log_time tool (src/src/types/schemas.ts,
logTimeSchemaShape): hours and activity_id required numbers, the rest
optional. -/
structure LogTimeArgs where
  issue_id : Option Int
  project_id : Option Int
  hours : Int
  comments : Option String
  spent_on : Option String
  activity_id : Int
deriving DecidableEq, Repr

/-- Request body fields built by logTime (src/src/index.ts lines 606 to 614):
hours and activity_id always present, the optional fields copied only when
truthy. -/
def logTimeData (args : LogTimeArgs) : Obj :=
  let d : Obj := [("hours", .num args.hours), ("activity_id", .num args.activity_id)]
  let d := setIfNum d "issue_id" args.issue_id
  let d := setIfNum d "project_id" args.project_id
  let d := setIfStr d "comments" args.comments
  let d := setIfStr d "spent_on" args.spent_on
  d

/-- The single POST request issued by logTime when validation passes. -/
def logTimeRequest (args : LogTimeArgs) : Request :=
  ⟨"/time_entries.json", "POST", [], some ("time_entry", logTimeData args)⟩

/-- The logTime tool method (src/src/index.ts lines 592 to 637): validates
hours, activity_id and the issue/project combination before issuing the POST
request. Every throw inside the try block is caught by the single catch
clause and rethrown wrapped with the operation prefix, which is inlined here
at each throw site. The second component records the requests issued. -/
def logTime (args : LogTimeArgs) (fetch : Transport) :
    Except JsErr ToolEnvelope × List Request :=
  if args.hours == 0 then
    (.error ⟨"Failed to log time: " ++ errString ⟨"hours is required"⟩⟩, [])
  else if args.activity_id == 0 then
    (.error ⟨"Failed to log time: " ++ errString
      ⟨"activity_id is required. Use get_time_activities tool to get valid activity IDs for the project."⟩⟩, [])
  else
    let d := logTimeData args
    if !truthyVal (objGet d "issue_id") && !truthyVal (objGet d "project_id") then
      (.error ⟨"Failed to log time: " ++ errString
        ⟨"Either issue_id or project_id must be provided"⟩⟩, [])
    else
      let req := logTimeRequest args
      match fetch req with
      | .ok data =>
          (.ok ⟨[⟨"text", "Time logged successfully: " ++ data⟩], false⟩, [req])
      | .error e => (.error ⟨"Failed to log time: " ++ errString e⟩, [req])

/-- Arguments of the update_issue tool (src/src/types/schemas.ts,
updateIssueSchemaShape): issue_id required, everything else optional. -/
structure UpdateIssueArgs where
  issue_id : Int
  subject : Option String
  description : Option String
  priority_id : Option Int
  assigned_to_id : Option Int
  tracker_id : Option Int
  category_id : Option Int
  fixed_version_id : Option Int
  start_date : Option String
  due_date : Option String
  estimated_hours : Option Int
  done_ratio : Option Int
  parent_issue_id : Option Int
  status_id : Option Int
  notes : Option String
deriving DecidableEq, Repr

/-- Request body fields built by updateIssue (src/src/index.ts lines 438 to
454), in source order: every optional field is copied only when truthy,
except done_ratio which is copied whenever it is not undefined. -/
def buildUpdateIssueData (args : UpdateIssueArgs) : Obj :=
  let d : Obj := []
  let d := setIfStr d "subject" args.subject
  let d := setIfStr d "description" args.description
  let d := setIfNum d "priority_id" args.priority_id
  let d := setIfNum d "assigned_to_id" args.assigned_to_id
  let d := setIfNum d "status_id" args.status_id
  let d := setIfDefined d "done_ratio" args.done_ratio
  let d := setIfStr d "notes" args.notes
  let d := setIfNum d "tracker_id" args.tracker_id
  let d := setIfNum d "category_id" args.category_id
  let d := setIfNum d "fixed_version_id" args.fixed_version_id
  let d := setIfStr d "start_date" args.start_date
  let d := setIfStr d "due_date" args.due_date
  let d := setIfNum d "estimated_hours" args.estimated_hours
  let d := setIfNum d "parent_issue_id" args.parent_issue_id
  d

/-- The updateIssue tool method (src/src/index.ts lines 430 to 473): first
the guard `if (!args.issue_id) throw` at lines 434 to 436, which fires on a
falsy (zero) issue_id and is caught by the catch clause of the method and
rethrown wrapped, before any request goes out; otherwise it issues a PUT
request whose body wraps the built field object under the issue key. -/
def updateIssue (args : UpdateIssueArgs) (fetch : Transport) :
    Except JsErr ToolEnvelope × List Request :=
  if args.issue_id == 0 then
    (.error ⟨"Failed to update issue: " ++ errString ⟨"issue_id is required"⟩⟩, [])
  else
    let req : Request :=
      ⟨"/issues/" ++ toString args.issue_id ++ ".json", "PUT", [],
        some ("issue", buildUpdateIssueData args)⟩
    match fetch req with
    | .ok data =>
        (.ok ⟨[⟨"text", "Issue updated successfully: " ++ data⟩], false⟩, [req])
    | .error e => (.error ⟨"Failed to update issue: " ++ errString e⟩, [req])

/-- Modelled from the spec: the Response Envelope Builder. The conversion of
a thrown error into a failure envelope lives in the MCP SDK wrapper around
each registerTool callback and is not part of this repository sources; per
the spec it catches any error raised by the translator chain, wraps its
message as a single text content item with isError set, and passes a
returned success envelope through unchanged, never rethrowing. -/
def envelopeBuilder (r : Except JsErr ToolEnvelope) : ToolEnvelope :=
  match r with
  | .ok env => env
  | .error e => ⟨[⟨"text", e.message⟩], true⟩

/-! ## Transport client (src/src/utils/redmine-client.ts) -/

/-- Resolution of the single awaited fetch inside fetchRedmine: either the
response arrived (with its ok flag, status code, error body text, JSON
content-type flag and parsed body), or the in-flight request was aborted by
the timeout timer firing (the fetch promise rejects with an AbortError), or
the fetch failed for another reason. -/
inductive FetchEvent where
  | responded (ok : Bool) (status : Nat) (bodyText : String) (ctJson : Bool)
      (jsonBody : String)
  | aborted
  | failed (e : JsErr)
deriving DecidableEq, Repr

/-- State of the cancellation timer created by setTimeout at line 59. -/
structure TimerSt where
  active : Bool
deriving DecidableEq, Repr

/-- The clearTimeout call: deactivates the timer; clearing an already cleared
timer is a no-op. -/
def clearTimeoutOp (_t : TimerSt) : TimerSt := ⟨false⟩

/-- Control-flow model of fetchRedmine (src/src/utils/redmine-client.ts lines
57 to 100). The timer is started before the request; on a response the timer
is cleared at line 79, then a non-ok status throws the Redmine API error
(caught by the catch clause, which clears again and rethrows it unchanged
since its name is not AbortError); an ok response returns the JSON body when
the content type is JSON and the empty object otherwise. An abort or other
failure reaches the catch clause, which clears the timer at line 95 and
throws the timeout error (for an AbortError) or rethrows unchanged. Returns
the result together with the final timer state. -/
def fetchRedmine (timeoutMs : Nat) (ev : FetchEvent) :
    Except JsErr String × TimerSt :=
  let t : TimerSt := ⟨true⟩
  match ev with
  | .responded ok status bodyText ctJson jsonBody =>
      let t := clearTimeoutOp t
      if !ok then
        let t := clearTimeoutOp t
        (.error ⟨"Redmine API error: " ++ toString status ++ " " ++ bodyText⟩, t)
      else if ctJson then (.ok jsonBody, t)
      else (.ok "\x7b\x7d", t)
  | .aborted =>
      let t := clearTimeoutOp t
      (.error ⟨"Request timeout after " ++ toString timeoutMs ++ "ms"⟩, t)
  | .failed e =>
      let t := clearTimeoutOp t
      (.error e, t)

/-! ## Pagination aggregation (src/src/index.ts lines 313 to 330 and 683 to
702) -/

/-- A Redmine project entity, with the fields the mapping projection uses. -/
structure RedmineProject where
  id : Int
  name : String
deriving DecidableEq, Repr

/-- Name-to-ID projection built by getProjects (src/src/index.ts lines 341
to 345): `projectMapping[project.name] = project.id` for each project in
iteration order, so a repeated name silently overwrites the earlier entry. -/
def buildProjectMapping (ps : List RedmineProject) : Obj :=
  ps.foldl (fun m p => objSet m p.name (.num p.id)) []

/-- The last project carrying the given name in iteration order, written as
the same left fold the mapping loop performs. -/
def lastNamed (ps : List RedmineProject) (nm : String) : Option RedmineProject :=
  ps.foldl (fun a p => if p.name == nm then some p else a) none

/-- One page returned by a Redmine list endpoint: the items plus the
total_count field, which the remote may omit. -/
structure Page (α : Type) where
  items : List α
  total_count : Option Nat
deriving Repr

/-- A remote collection, abstracted as a function from page size and offset
to the returned page. -/
abbrev Remote (α : Type) := Nat → Nat → Page α

/-- State of the aggregation loop: the accumulator, the current offset, and
the number of HTTP requests issued so far. -/
structure AggState (α : Type) where
  acc : List α
  offset : Nat
  requests : Nat
deriving Repr

/-- The do-while pagination loop shared by getProjects (src/src/index.ts
lines 319 to 330, page size fixed at 100) and getProjectMemberships (lines
688 to 702, page size `args.limit ?? 100`), fuel-indexed. Each iteration
requests one page at the current offset, appends its items, computes the
loop total as `total_count ?? accumulator.length`, and advances the offset
by the page size; the loop continues while the accumulator is shorter than
the total. The boolean is true when the loop completed and false when the
fuel ran out with the loop condition still holding, meaning the source loop
would still be running. -/
def runAgg (remote : Remote α) (pageSize : Nat) :
    Nat → AggState α → AggState α × Bool
  | 0, s => (s, false)
  | fuel + 1, s =>
      let page := remote pageSize s.offset
      let acc := s.acc ++ page.items
      let total := page.total_count.getD acc.length
      let s2 : AggState α := ⟨acc, s.offset + pageSize, s.requests + 1⟩
      if acc.length < total then runAgg remote pageSize fuel s2
      else (s2, true)

/-- The whole aggregation of a list-all operation, started from an empty
accumulator at offset zero. -/
def collectAll (remote : Remote α) (pageSize fuel : Nat) : AggState α × Bool :=
  runAgg remote pageSize fuel ⟨[], 0, 0⟩

/-- The pagination driver of getProjectMemberships (src/src/index.ts lines
683 to 702): the caller-supplied limit argument, when present, is used as
the page size of every request, `const limit = args.limit ?? 100`. -/
def membershipAggregate (callerLimit : Option Nat) (remote : Remote α)
    (fuel : Nat) : AggState α × Bool :=
  collectAll remote (callerLimit.getD 100) fuel

/-- A stable remote collection backed by the given item list: the page at an
offset holds the next pageSize items and every page reports
total_count = items.length. -/
def listRemote (items : List α) : Remote α :=
  fun pageSize offset => ⟨(items.drop offset).take pageSize, some items.length⟩

/-- Number of loop iterations the aggregation performs over a stable
collection of n items at page size p: the ceiling of n / p, but at least one
because the do-while body always runs once. -/
def reqCount (n p : Nat) : Nat := max 1 ((n + p - 1) / p)

/-! ## Concrete fixtures used by witnesses and counterexamples -/

/-- A get_issues argument object with every filter absent. -/
def argsNone : GetIssuesArgs := ⟨none, none, none, none, none, none, none⟩

/-- A transport that always fails, the injected transport error. -/
def errFetch : Transport := fun _ => .error ⟨"injected transport failure"⟩

/-- A remote whose every page holds one item and omits total_count. -/
def noCountRemote : Remote Nat := fun _ _ => ⟨[5], none⟩

/-- A log_time argument object with valid hours and activity but neither an
issue nor a project reference. -/
def ltArgsNoTarget : LogTimeArgs := ⟨none, none, 2, none, none, 7⟩

/-- An update_issue argument object supplying every optional field with a
falsy value, done_ratio = 0 included. -/
def uArgsFalsy : UpdateIssueArgs :=
  ⟨5, some "", some "", some 0, some 0, some 0, some 0, some 0, some "",
    some "", some 0, some 0, some 0, some 0, some ""⟩

/-! ## Object lemmas -/

theorem objGet_objSet_self (d : Obj) (k : String) (v : PVal) :
    objGet (objSet d k v) k = some v := by
  induction d with
  | nil => simp [objSet, objGet]
  | cons hd rest ih =>
      obtain ⟨k2, v2⟩ := hd
      by_cases h : (k2 == k) = true
      · simp [objSet, h, objGet]
      · simp only [Bool.not_eq_true] at h
        simp [objSet, h, objGet, ih]

theorem objGet_objSet_ne (d : Obj) {k k2 : String} (v : PVal)
    (h : (k == k2) = false) : objGet (objSet d k v) k2 = objGet d k2 := by
  induction d with
  | nil => simp [objSet, objGet, h]
  | cons hd rest ih =>
      obtain ⟨k3, v3⟩ := hd
      by_cases h3 : (k3 == k) = true
      · have hk : k3 = k := by simpa using h3
        subst hk
        simp [objSet, objGet, h]
      · simp only [Bool.not_eq_true] at h3
        simp [objSet, h3, objGet, ih]

theorem setIfStr_eq_of_none {d : Obj} {k : String} :
    setIfStr d k none = d := rfl

theorem setIfNum_eq_of_none {d : Obj} {k : String} :
    setIfNum d k none = d := rfl

theorem setIfDefined_eq_of_none {d : Obj} {k : String} :
    setIfDefined d k none = d := rfl

theorem setIfStr_eq_of_empty {d : Obj} {k : String} :
    setIfStr d k (some "") = d := by simp [setIfStr]

theorem setIfNum_eq_of_zero {d : Obj} {k : String} :
    setIfNum d k (some 0) = d := by simp [setIfNum]

theorem setIfNum_eq_of_ne_zero {d : Obj} {k : String} {n : Int} (h : ¬n = 0) :
    setIfNum d k (some n) = objSet d k (.num n) := by simp [setIfNum, h]

theorem objGet_setIfStr_ne (d : Obj) {k : String} (o : Option String)
    {k2 : String} (h : (k == k2) = false) :
    objGet (setIfStr d k o) k2 = objGet d k2 := by
  cases o with
  | none => rfl
  | some s =>
      simp only [setIfStr]
      split
      · rfl
      · exact objGet_objSet_ne d _ h

theorem objGet_setIfNum_ne (d : Obj) {k : String} (o : Option Int)
    {k2 : String} (h : (k == k2) = false) :
    objGet (setIfNum d k o) k2 = objGet d k2 := by
  cases o with
  | none => rfl
  | some n =>
      simp only [setIfNum]
      split
      · rfl
      · exact objGet_objSet_ne d _ h

theorem objGet_setIfDefined_ne (d : Obj) {k : String} (o : Option Int)
    {k2 : String} (h : (k == k2) = false) :
    objGet (setIfDefined d k o) k2 = objGet d k2 := by
  cases o with
  | none => rfl
  | some n => exact objGet_objSet_ne d _ h

/-! ## Request-count arithmetic -/

theorem reqCount_pos (n p : Nat) : 1 ≤ reqCount n p := by
  unfold reqCount; omega

theorem reqCount_of_le {n p : Nat} (hp : 1 ≤ p) (h : n ≤ p) :
    reqCount n p = 1 := by
  unfold reqCount
  have h2 : (n + p - 1) / p < 2 := Nat.div_lt_of_lt_mul (by omega)
  omega

theorem reqCount_of_gt {n p : Nat} (hp : 1 ≤ p) (h : p < n) :
    reqCount n p = 1 + reqCount (n - p) p := by
  have hq : 1 ≤ (n - 1) / p := (Nat.one_le_div_iff (by omega)).mpr (by omega)
  have h1 : n + p - 1 = (n - 1) + p := by omega
  have h2 : n - p + p - 1 = n - 1 := by omega
  unfold reqCount
  rw [h1, h2, Nat.add_div_right _ (by omega)]
  omega

/-! ## Behaviour of the aggregation loop over a stable remote collection -/

theorem runAgg_listRemote {α : Type} (items : List α) (p : Nat) (hp : 1 ≤ p) :
    ∀ fuel offset r, reqCount (items.length - offset) p ≤ fuel →
      runAgg (listRemote items) p fuel ⟨items.take offset, offset, r⟩ =
        (⟨items, offset + p * reqCount (items.length - offset) p,
           r + reqCount (items.length - offset) p⟩, true) := by
  intro fuel
  induction fuel with
  | zero =>
      intro offset r h
      exact absurd h (by have := reqCount_pos (items.length - offset) p; omega)
  | succ fuel ih =>
      intro offset r h
      have hacc : items.take offset ++ (items.drop offset).take p
          = items.take (offset + p) := (List.take_add items offset p).symm
      by_cases hc : offset + p < items.length
      · have hlt : p < items.length - offset := by omega
        have hreq := reqCount_of_gt hp hlt
        have hsub : items.length - offset - p = items.length - (offset + p) := by
          omega
        rw [hsub] at hreq
        have hstep :
            runAgg (listRemote items) p (fuel + 1) ⟨items.take offset, offset, r⟩
              = runAgg (listRemote items) p fuel
                  ⟨items.take (offset + p), offset + p, r + 1⟩ := by
          simp only [runAgg, listRemote, Option.getD_some]
          rw [hacc, if_pos (by rw [List.length_take]; omega)]
        have hih := ih (offset + p) (r + 1) (by omega)
        rw [hstep, hih, hreq, Nat.mul_add, Nat.mul_one]
        simp [Nat.add_assoc]
      · have hle : items.length - offset ≤ p := by omega
        have hreq := reqCount_of_le hp hle
        simp only [runAgg, listRemote, Option.getD_some]
        rw [hacc, if_neg (by rw [List.length_take]; omega)]
        rw [List.take_of_length_le (by omega : items.length ≤ offset + p), hreq]
        simp

theorem collectAll_listRemote {α : Type} (items : List α) (p : Nat) (hp : 1 ≤ p)
    (fuel : Nat) (hf : reqCount items.length p ≤ fuel) :
    collectAll (listRemote items) p fuel =
      (⟨items, p * reqCount items.length p, reqCount items.length p⟩, true) := by
  have h := runAgg_listRemote items p hp fuel 0 0 (by simpa using hf)
  simpa [collectAll] using h

theorem runAgg_zero_pageSize {α : Type} (items : List α) (h : 1 ≤ items.length) :
    ∀ fuel r, runAgg (listRemote items) 0 fuel ⟨[], 0, r⟩ =
      (⟨[], 0, r + fuel⟩, false) := by
  intro fuel
  induction fuel with
  | zero => intro r; simp [runAgg]
  | succ fuel ih =>
      intro r
      have hstep :
          runAgg (listRemote items) 0 (fuel + 1) ⟨[], 0, r⟩
            = runAgg (listRemote items) 0 fuel ⟨[], 0, r + 1⟩ := by
        simp only [runAgg, listRemote, Option.getD_some]
        rw [if_pos (by simpa using h)]
        simp
      rw [hstep, ih (r + 1), Nat.add_assoc, Nat.add_comm 1 fuel]

theorem runAgg_stops_without_total {α : Type} (remote : Remote α) (p fuel : Nat)
    (s : AggState α) (h : (remote p s.offset).total_count = none) :
    runAgg remote p (fuel + 1) s =
      (⟨s.acc ++ (remote p s.offset).items, s.offset + p, s.requests + 1⟩,
        true) := by
  simp only [runAgg, h, Option.getD_none]
  rw [if_neg (lt_irrefl _)]

/-! ## Name-to-ID mapping lemmas -/

theorem lastNamed_foldl_init (ps : List RedmineProject) (nm : String) :
    ∀ a, ps.foldl (fun a p => if p.name == nm then some p else a) a
      = (ps.foldl (fun a p => if p.name == nm then some p else a) none).elim
          a some := by
  induction ps with
  | nil => intro a; simp
  | cons p ps ih =>
      intro a
      simp only [List.foldl_cons]
      rw [ih, ih (if p.name == nm then some p else none)]
      cases hb : ps.foldl (fun a p => if p.name == nm then some p else a) none with
      | some r => simp
      | none =>
          by_cases h : (p.name == nm) = true
          · simp [h]
          · simp only [Bool.not_eq_true] at h
            simp [h]

theorem buildMapping_get_general (ps : List RedmineProject) :
    ∀ (m : Obj) (nm : String),
      objGet (ps.foldl (fun m p => objSet m p.name (.num p.id)) m) nm
        = (ps.foldl (fun a p => if p.name == nm then some p else a) none).elim
            (objGet m nm) (fun p => some (.num p.id)) := by
  induction ps with
  | nil => intro m nm; simp
  | cons p ps ih =>
      intro m nm
      simp only [List.foldl_cons]
      rw [ih, lastNamed_foldl_init ps nm (if p.name == nm then some p else none)]
      cases hb : ps.foldl (fun a p => if p.name == nm then some p else a) none with
      | some r => simp
      | none =>
          by_cases h : (p.name == nm) = true
          · have he : p.name = nm := by simpa using h
            subst he
            simp [h, objGet_objSet_self]
          · simp only [Bool.not_eq_true] at h
            simp [h, objGet_objSet_ne m _ h]

/-! ## Claim theorems -/

/-- C1: for every get_issues invocation, whether the transport call succeeds
or fails, the envelope surfaced past the Response Envelope Builder contains
at least one text content item and no exception escapes that boundary; on an
injected transport error the returned envelope has isError = true. -/
theorem C1_envelope_never_throws (args : GetIssuesArgs) (fetch : Transport) :
    1 ≤ (envelopeBuilder (getIssues args fetch).1).content.length ∧
    (∀ e : JsErr, fetch (issuesRequest args) = .error e →
      (envelopeBuilder (getIssues args fetch).1).isError = true) := by
  cases hf : fetch (issuesRequest args) with
  | ok d =>
      refine ⟨by simp [getIssues, hf, envelopeBuilder], ?_⟩
      intro e he
      simp at he
  | error e0 =>
      exact ⟨by simp [getIssues, hf, envelopeBuilder],
        fun e he => by simp [getIssues, hf, envelopeBuilder]⟩

/-- C1 witness: at the all-absent argument object and the always-failing
transport, the envelope has a content item and isError = true. -/
theorem C1_envelope_never_throws_witness :
    1 ≤ (envelopeBuilder (getIssues argsNone errFetch).1).content.length ∧
    (envelopeBuilder (getIssues argsNone errFetch).1).isError = true :=
  ⟨(C1_envelope_never_throws argsNone errFetch).1,
    (C1_envelope_never_throws argsNone errFetch).2
      ⟨"injected transport failure"⟩ rfl⟩

/-- C2 counterexample: with a stable remote of 2 items and caller limit 1
the aggregation returns 2 items, not min(2, 1) = 1 — the limit is the page
size, not a cap — and with an empty remote the do-while still issues 1
request, not ceil(0/p) = 0. -/
theorem C2_cap_counterexample :
    membershipAggregate (some 1) (listRemote [10, 20]) 5
      = (⟨[10, 20], 2, 2⟩, true) ∧
    ¬((membershipAggregate (some 1) (listRemote [10, 20]) 5).1.acc.length
        = min 2 1) ∧
    membershipAggregate none (listRemote ([] : List Nat)) 5
      = (⟨[], 100, 1⟩, true) ∧
    ¬((membershipAggregate none (listRemote ([] : List Nat)) 5).1.requests
        = 0) :=
  ⟨rfl, by decide, rfl, by decide⟩

/-- C2 amended: for every caller limit and stable remote of n items, with
page size p = callerLimit ?? 100 at least 1 and enough fuel, the aggregation
returns all n items — the caller-supplied limit acts as the page size of
each request, never as a cap on the items returned — and issues exactly
max(1, ceil(n / p)) requests, one request being issued even when n = 0. -/
theorem C2_pagination_amended {α : Type} (items : List α)
    (callerLimit : Option Nat) (fuel : Nat)
    (hp : 1 ≤ callerLimit.getD 100)
    (hf : reqCount items.length (callerLimit.getD 100) ≤ fuel) :
    membershipAggregate callerLimit (listRemote items) fuel =
      (⟨items,
         callerLimit.getD 100 * reqCount items.length (callerLimit.getD 100),
         reqCount items.length (callerLimit.getD 100)⟩, true) ∧
    reqCount items.length (callerLimit.getD 100)
      = max 1 ((items.length + callerLimit.getD 100 - 1)
          / callerLimit.getD 100) :=
  ⟨collectAll_listRemote items _ hp fuel hf, rfl⟩

/-- C2 amended witness: two items at page size 1 come back whole in two
requests. -/
theorem C2_pagination_amended_witness :
    (membershipAggregate (some 1) (listRemote [10, 20]) 7).1.acc = [10, 20] := by
  rw [(C2_pagination_amended [10, 20] (some 1) 7 (by decide) (by decide)).1]

/-- C3: over a stable remote collection reporting one total_count on every
page, the aggregation loop terminates, completing within max(1, ceil(n/p))
iterations for any page size at least 1; and from any state, a page that
omits total_count makes the loop take the accumulator length as the total
and stop at the end of that iteration. -/
theorem C3_pagination_terminates {α : Type} :
    (∀ (items : List α) (p fuel : Nat), 1 ≤ p →
      reqCount items.length p ≤ fuel →
      (collectAll (listRemote items) p fuel).2 = true) ∧
    (∀ (remote : Remote α) (p fuel : Nat) (s : AggState α),
      (remote p s.offset).total_count = none →
      runAgg remote p (fuel + 1) s =
        (⟨s.acc ++ (remote p s.offset).items, s.offset + p, s.requests + 1⟩,
          true)) := by
  constructor
  · intro items p fuel hp hf
    rw [collectAll_listRemote items p hp fuel hf]
  · intro remote p fuel s h
    exact runAgg_stops_without_total remote p fuel s h

/-- C3 witness: a two-item stable remote at page size 1 completes with fuel
2, and a remote omitting total_count stops after its first page. -/
theorem C3_pagination_terminates_witness :
    (collectAll (listRemote [10, 20]) 1 2).2 = true ∧
    runAgg noCountRemote 1 3 ⟨[], 0, 0⟩ = (⟨[5], 1, 1⟩, true) := by
  constructor
  · exact (@C3_pagination_terminates Nat).1 [10, 20] 1 2 (by decide) (by decide)
  · have h := (@C3_pagination_terminates Nat).2 noCountRemote 1 2 ⟨[], 0, 0⟩ rfl
    simpa using h

/-- C4: the code performs no page-size validation at all: a
getProjectMemberships call with limit = 0 against a project holding one
membership issues one HTTP request per loop iteration and never completes,
since the offset never advances — for every fuel the loop is still running
with as many requests issued as iterations run, instead of failing with a
validation error before the first request. -/
theorem C4_zero_page_size_loops (fuel : Nat) :
    membershipAggregate (some 0) (listRemote [10]) fuel =
      (⟨[], 0, fuel⟩, false) := by
  have h := runAgg_zero_pageSize [10] (by decide) fuel 0
  simpa [membershipAggregate, collectAll] using h

/-- C5 counterexample: an injected transport error with message boom reaches
the envelope boundary as a different, wrapped error carrying the operation
prefix, so the error is not propagated unmodified. -/
theorem C5_unmodified_error_counterexample :
    (getIssues argsNone (fun _ => .error ⟨"boom"⟩)).1
      = .error ⟨"Failed to fetch issues: Error: boom"⟩ ∧
    ¬(JsErr.mk "Failed to fetch issues: Error: boom" = ⟨"boom"⟩) :=
  ⟨rfl, by decide⟩

/-- C5 amended: every transport error is caught once inside the operation
translator itself, whose catch clause rethrows a fresh Error prefixing the
operation context around the interpolated original error; that wrapped
error, not the original, is what reaches the envelope boundary (shown for
getIssues and, with a truthy issue reference and valid required fields, for
logTime). -/
theorem C5_error_wrapping_amended (args : GetIssuesArgs) (la : LogTimeArgs)
    (fetch : Transport) (e : JsErr) :
    (fetch (issuesRequest args) = .error e →
      (getIssues args fetch).1
        = .error ⟨"Failed to fetch issues: " ++ errString e⟩) ∧
    (¬la.hours = 0 → ¬la.activity_id = 0 → truthyNum la.issue_id = true →
      fetch (logTimeRequest la) = .error e →
      (logTime la fetch).1
        = .error ⟨"Failed to log time: " ++ errString e⟩) := by
  constructor
  · intro h
    simp [getIssues, h]
  · intro h1 h2 h3 h4
    obtain ⟨v, hv, hvne⟩ : ∃ v, la.issue_id = some v ∧ ¬v = 0 := by
      cases hiv : la.issue_id with
      | none => rw [hiv] at h3; simp [truthyNum] at h3
      | some v =>
          rw [hiv] at h3
          simp [truthyNum] at h3
          exact ⟨v, rfl, h3⟩
    have hobj : objGet (logTimeData la) "issue_id" = some (.num v) := by
      simp only [logTimeData]
      rw [hv, setIfNum_eq_of_ne_zero hvne]
      simp [objGet_setIfStr_ne, objGet_setIfNum_ne, objGet_objSet_self]
    have hb1 : (la.hours == 0) = false := by simpa using h1
    have hb2 : (la.activity_id == 0) = false := by simpa using h2
    simp [logTime, hb1, hb2, hobj, truthyVal, hvne, h4]

/-- C5 amended witness: the boom transport error comes out of getIssues and
logTime wrapped with the respective operation prefixes. -/
theorem C5_error_wrapping_amended_witness :
    (getIssues argsNone (fun _ => .error ⟨"boom"⟩)).1
      = .error ⟨"Failed to fetch issues: " ++ errString ⟨"boom"⟩⟩ ∧
    (logTime ⟨some 3, none, 2, none, none, 7⟩ (fun _ => .error ⟨"boom"⟩)).1
      = .error ⟨"Failed to log time: " ++ errString ⟨"boom"⟩⟩ := by
  have h := C5_error_wrapping_amended argsNone ⟨some 3, none, 2, none, none, 7⟩
    (fun _ => .error ⟨"boom"⟩) ⟨"boom"⟩
  exact ⟨h.1 rfl, h.2 (by decide) (by decide) rfl rfl⟩

/-- C6: in the transport client, on every execution path — ok response,
non-ok status, timeout abort, or other failure — the timeout timer ends
cleared before fetchRedmine returns or throws; and when the timer elapses
first, aborting the in-flight request so the awaited fetch rejects with the
abort, the call fails with the timeout error of the transport client,
thrown as the same Error kind as its HTTP-status errors. -/
theorem C6_timeout_timer_cleared (timeoutMs : Nat) :
    (∀ ev : FetchEvent, ((fetchRedmine timeoutMs ev).2).active = false) ∧
    (fetchRedmine timeoutMs .aborted).1
      = .error ⟨"Request timeout after " ++ toString timeoutMs ++ "ms"⟩ := by
  constructor
  · intro ev
    cases ev with
    | responded ok status bodyText ctJson jsonBody =>
        cases ok <;> cases ctJson <;> rfl
    | aborted => rfl
    | failed e => rfl
  · rfl

/-- C7: a logTime call supplying neither issue_id nor project_id fails
before any HTTP request is issued — the request list stays empty and the
result is an error — and when the required hours and activity_id are valid
the error is the wrapped either-issue-or-project validation message. -/
theorem C7_logTime_validation (args : LogTimeArgs) (fetch : Transport)
    (hi : args.issue_id = none) (hpj : args.project_id = none) :
    (logTime args fetch).2 = [] ∧
    (∃ e : JsErr, (logTime args fetch).1 = .error e) ∧
    (¬args.hours = 0 → ¬args.activity_id = 0 →
      (logTime args fetch).1 = .error
        ⟨"Failed to log time: Error: Either issue_id or project_id must be provided"⟩) := by
  by_cases h1 : args.hours = 0
  · have hb1 : (args.hours == 0) = true := by simpa using h1
    have herr : (logTime args fetch).1
        = .error ⟨"Failed to log time: " ++ errString ⟨"hours is required"⟩⟩ := by
      simp [logTime, hb1]
    exact ⟨by simp [logTime, hb1], ⟨_, herr⟩, fun hc _ => absurd h1 hc⟩
  · by_cases h2 : args.activity_id = 0
    · have hb1 : (args.hours == 0) = false := by simpa using h1
      have hb2 : (args.activity_id == 0) = true := by simpa using h2
      have herr : (logTime args fetch).1 = .error
          ⟨"Failed to log time: " ++ errString
            ⟨"activity_id is required. Use get_time_activities tool to get valid activity IDs for the project."⟩⟩ := by
        simp [logTime, hb1, hb2]
      exact ⟨by simp [logTime, hb1, hb2], ⟨_, herr⟩, fun _ hc => absurd h2 hc⟩
    · have hobj1 : objGet (logTimeData args) "issue_id" = none := by
        simp only [logTimeData]
        rw [hi, hpj, setIfNum_eq_of_none, setIfNum_eq_of_none]
        simp [objGet_setIfStr_ne, objGet]
      have hobj2 : objGet (logTimeData args) "project_id" = none := by
        simp only [logTimeData]
        rw [hi, hpj, setIfNum_eq_of_none, setIfNum_eq_of_none]
        simp [objGet_setIfStr_ne, objGet]
      have hb1 : (args.hours == 0) = false := by simpa using h1
      have hb2 : (args.activity_id == 0) = false := by simpa using h2
      have herr : (logTime args fetch).1 = .error
          ⟨"Failed to log time: Error: Either issue_id or project_id must be provided"⟩ := by
        simp [logTime, hb1, hb2, hobj1, hobj2, truthyVal, errString]
      exact ⟨by simp [logTime, hb1, hb2, hobj1, hobj2, truthyVal],
        ⟨_, herr⟩, fun _ _ => herr⟩

/-- C7 witness: with valid hours and activity but no issue or project
reference, no request goes out and the validation error comes back. -/
theorem C7_logTime_validation_witness :
    (logTime ltArgsNoTarget (fun _ => .ok "x")).2 = [] ∧
    (logTime ltArgsNoTarget (fun _ => .ok "x")).1 = .error
      ⟨"Failed to log time: Error: Either issue_id or project_id must be provided"⟩ := by
  have h := C7_logTime_validation ltArgsNoTarget (fun _ => .ok "x") rfl rfl
  exact ⟨h.1, h.2.2 (by decide) (by decide)⟩

/-- C8: the name-to-ID projection built by getProjects maps every name to
the ID of the last project bearing that name in iteration order, and over
the two projects named A with IDs 1 and 2 it yields the single entry A
mapped to 2. -/
theorem C8_name_mapping_last_wins :
    (∀ (ps : List RedmineProject) (nm : String),
      objGet (buildProjectMapping ps) nm
        = (lastNamed ps nm).map (fun p => PVal.num p.id)) ∧
    buildProjectMapping [⟨1, "A"⟩, ⟨2, "A"⟩] = [("A", .num 2)] ∧
    objGet (buildProjectMapping [⟨1, "A"⟩, ⟨2, "A"⟩]) "A" = some (.num 2) := by
  refine ⟨?_, rfl, rfl⟩
  intro ps nm
  unfold buildProjectMapping lastNamed
  rw [buildMapping_get_general ps [] nm]
  cases ps.foldl (fun a p => if p.name == nm then some p else a) none <;>
    simp [objGet]

/-- C9: every get_issues invocation sends exactly one request, whose query
parameters carry the sort key with the fixed value
priority:desc,updated_on:desc, whatever filter arguments are supplied; the
argument object offers no sort field, so no caller can override or remove
it. -/
theorem C9_fixed_sort_param (args : GetIssuesArgs) (fetch : Transport) :
    (getIssues args fetch).2 = [issuesRequest args] ∧
    objGet (issuesRequest args).params "sort"
      = some (.str "priority:desc,updated_on:desc") := by
  constructor
  · cases hf : fetch (issuesRequest args) <;> simp [getIssues, hf]
  · show objGet (buildIssueParams args) "sort" = _
    unfold buildIssueParams
    exact objGet_objSet_self _ _ _

/-- C10: updateIssue, past its issue_id guard (a falsy issue_id throws
before any request, so the request list stays empty there), issues one PUT
carrying the built issue body, in which done_ratio is included whenever
supplied, zero included, while every other supplied optional field holding a
falsy value — a zero number or an empty string — is omitted as though
absent. -/
theorem C10_update_falsy_fields (args : UpdateIssueArgs) (fetch : Transport) :
    (¬args.issue_id = 0 → (updateIssue args fetch).2
      = [⟨"/issues/" ++ toString args.issue_id ++ ".json", "PUT", [],
          some ("issue", buildUpdateIssueData args)⟩]) ∧
    (args.issue_id = 0 → (updateIssue args fetch).2 = []) ∧
    (∀ v : Int, args.done_ratio = some v →
      objGet (buildUpdateIssueData args) "done_ratio" = some (.num v)) ∧
    (args.subject = some "" →
      objGet (buildUpdateIssueData args) "subject" = none) ∧
    (args.description = some "" →
      objGet (buildUpdateIssueData args) "description" = none) ∧
    (args.notes = some "" →
      objGet (buildUpdateIssueData args) "notes" = none) ∧
    (args.start_date = some "" →
      objGet (buildUpdateIssueData args) "start_date" = none) ∧
    (args.due_date = some "" →
      objGet (buildUpdateIssueData args) "due_date" = none) ∧
    (args.priority_id = some 0 →
      objGet (buildUpdateIssueData args) "priority_id" = none) ∧
    (args.assigned_to_id = some 0 →
      objGet (buildUpdateIssueData args) "assigned_to_id" = none) ∧
    (args.status_id = some 0 →
      objGet (buildUpdateIssueData args) "status_id" = none) ∧
    (args.tracker_id = some 0 →
      objGet (buildUpdateIssueData args) "tracker_id" = none) ∧
    (args.category_id = some 0 →
      objGet (buildUpdateIssueData args) "category_id" = none) ∧
    (args.fixed_version_id = some 0 →
      objGet (buildUpdateIssueData args) "fixed_version_id" = none) ∧
    (args.estimated_hours = some 0 →
      objGet (buildUpdateIssueData args) "estimated_hours" = none) ∧
    (args.parent_issue_id = some 0 →
      objGet (buildUpdateIssueData args) "parent_issue_id" = none) := by
  refine ⟨?_, ?_, ?_, ?_, ?_, ?_, ?_, ?_, ?_, ?_, ?_, ?_, ?_, ?_, ?_, ?_⟩
  · intro h
    have hb : (args.issue_id == 0) = false := by simpa using h
    cases hf : fetch ⟨"/issues/" ++ toString args.issue_id ++ ".json", "PUT",
      [], some ("issue", buildUpdateIssueData args)⟩ <;>
      simp [updateIssue, hb, hf]
  · intro h
    simp [updateIssue, h]
  · intro v h
    simp only [buildUpdateIssueData]
    rw [h]
    simp [objGet_setIfNum_ne, objGet_setIfStr_ne, setIfDefined,
      objGet_objSet_self]
  all_goals
    intro h
    simp only [buildUpdateIssueData]
    rw [h]
    first
      | rw [setIfStr_eq_of_empty]
      | rw [setIfNum_eq_of_zero]
    simp [objGet_setIfNum_ne, objGet_setIfStr_ne, objGet_setIfDefined_ne,
      objGet]

/-- C10 witness: at issue_id 5 with every optional field supplied falsy, the
PUT goes out and its body keeps done_ratio = 0 while dropping subject and
estimated_hours. -/
theorem C10_update_falsy_fields_witness :
    (updateIssue uArgsFalsy (fun _ => .ok "x")).2
      = [⟨"/issues/" ++ toString (5 : Int) ++ ".json", "PUT", [],
          some ("issue", buildUpdateIssueData uArgsFalsy)⟩] ∧
    objGet (buildUpdateIssueData uArgsFalsy) "done_ratio" = some (.num 0) ∧
    objGet (buildUpdateIssueData uArgsFalsy) "subject" = none ∧
    objGet (buildUpdateIssueData uArgsFalsy) "estimated_hours" = none := by
  obtain ⟨h1, -, h3, h4, -, -, -, -, -, -, -, -, -, -, h15, -⟩ :=
    C10_update_falsy_fields uArgsFalsy (fun _ => .ok "x")
  exact ⟨h1 (by decide), h3 0 rfl, h4 rfl, h15 rfl⟩

end RedmineMCP
